import Mathlib

/-!
Shallow embedding of the monitoring engine of `website-status-monitor`
(`src/website_monitor.py`, `src/settings.py`, and the interface of
`src/database_manager.py`), together with proofs of the specification
claims about it.

Modelling conventions:
* wall-clock instants and durations are rationals (seconds);
* Python's `collections.deque` used FIFO becomes a `List`, head = front;
* the aiohttp transport is an oracle `HttpMethod → String → TransportOutcome`
  supplied by the environment; the events the probe performs (requests
  issued, body reads) are recorded in a trace;
* the database sink (`DatabaseManager.batch_insert_monitoring_data`) is an
  oracle `List WebsiteMonitoringResult → Bool` deciding whether the bulk
  insert succeeds (`false` = it raises `psycopg2.Error`);
* Python's `re.search` is modelled by a derivative-based matcher over the
  pattern fragment built from literal characters and the metacharacters
  `.`, `*` and `|`.
-/

namespace WebsiteStatusMonitor

/-! ## `src/settings.py` -/

namespace MonitoringSettings

/-- Timeout in seconds for each website request (`settings.py`). -/
def REQUEST_TIMEOUT : ℚ := 30

/-- Worker wait time in seconds before fetching the next batch (`settings.py`). -/
def RESULTS_WORKER_WAIT_TIME : ℚ := 3

/-- Maximum number of monitoring results to save in one batch (`settings.py`). -/
def RESULTS_BATCH_SAVE_SIZE : ℕ := 100

end MonitoringSettings

/-! ## Data model: `WebsiteMonitoringResult` (`website_monitor.py`, lines 27-47) -/

/-- The dataclass `WebsiteMonitoringResult`. Timestamps are rationals
(seconds); optional fields keep their Python `None` default as `none`. -/
structure WebsiteMonitoringResult where
  request_timestamp : ℚ
  response_timestamp : ℚ
  response_time : ℚ
  http_status_code : ℕ
  url : Option String := none
  website_id : Option ℕ := none
  is_regex_pattern_compliant : Option Bool := none
  deriving Repr, DecidableEq

/-! ## Model of the Python `re` module (external library)

`check_website_availability` calls `re.search(regexp_pattern, response_body)`
and tests the result against `None`.  We model `re.search` for patterns in
the fragment of literal characters plus the metacharacters `.` (any
character), postfix `*` (Kleene star) and top-level `|` (alternation),
using Brzozowski derivatives.  A search succeeds iff the compiled pattern
matches some contiguous substring of the subject (not necessarily the
whole subject). -/

/-- Regular expressions over characters. -/
inductive Regex where
  | emptyset : Regex
  | epsilon : Regex
  | anyChar : Regex
  | char (c : Char) : Regex
  | seq (r₁ r₂ : Regex) : Regex
  | alt (r₁ r₂ : Regex) : Regex
  | star (r : Regex) : Regex
  deriving Repr, DecidableEq

/-- Does the regex accept the empty word? -/
def Regex.nullable : Regex → Bool
  | .emptyset => false
  | .epsilon => true
  | .anyChar => false
  | .char _ => false
  | .seq r₁ r₂ => r₁.nullable && r₂.nullable
  | .alt r₁ r₂ => r₁.nullable || r₂.nullable
  | .star _ => true

/-- Brzozowski derivative of a regex with respect to a character. -/
def Regex.deriv : Regex → Char → Regex
  | .emptyset, _ => .emptyset
  | .epsilon, _ => .emptyset
  | .anyChar, _ => .epsilon
  | .char c, d => if c = d then .epsilon else .emptyset
  | .seq r₁ r₂, d =>
      if r₁.nullable then .alt (.seq (r₁.deriv d) r₂) (r₂.deriv d)
      else .seq (r₁.deriv d) r₂
  | .alt r₁ r₂, d => .alt (r₁.deriv d) (r₂.deriv d)
  | .star r, d => .seq (r.deriv d) (.star r)

/-- Whole-word acceptance via iterated derivatives. -/
def Regex.accept (r : Regex) : List Char → Bool
  | [] => r.nullable
  | c :: cs => (r.deriv c).accept cs

/-- Semantics of `re.search`: the regex matches some contiguous substring of
the subject (the match may start, and end, anywhere). -/
def Regex.search (r : Regex) (s : List Char) : Bool :=
  s.tails.any fun suf => suf.inits.any fun mid => r.accept mid

/-- One non-metacharacter pattern atom: `.` matches any character, every
other character matches itself. -/
def compileAtom (c : Char) : Regex :=
  if c = '.' then .anyChar else .char c

/-- Compile one `|`-free branch of a pattern: a concatenation of atoms in
which a postfix `*` wraps the preceding atom in a Kleene star.  The
accumulator holds the compiled atoms in reverse order. -/
def compileConcatAux : List Regex → List Char → Regex
  | acc, [] => acc.reverse.foldr Regex.seq .epsilon
  | acc, c :: rest =>
    if c = '*' then
      match acc with
      | [] => compileConcatAux [] rest
      | a :: as => compileConcatAux (Regex.star a :: as) rest
  else compileConcatAux (compileAtom c :: acc) rest

/-- Compile a `|`-free branch of a pattern. -/
def compileConcat (cs : List Char) : Regex :=
  compileConcatAux [] cs

/-- Split a pattern at every top-level `|` (the model supports no
parenthesised groups, so every `|` is top-level). -/
def splitOnPipe : List Char → List (List Char)
  | [] => [[]]
  | c :: rest =>
    if c = '|' then [] :: splitOnPipe rest
    else
      match splitOnPipe rest with
      | [] => [[c]]
      | h :: t => (c :: h) :: t

/-- Model of `re.compile` on the supported fragment: alternation of
`|`-separated branches. -/
def compilePattern (p : String) : Regex :=
  match (splitOnPipe p.toList).map compileConcat with
  | [] => .emptyset
  | r :: rs => rs.foldl Regex.alt r

/-- Model of `re.search(pattern, body) is not None`. -/
def re_search (pattern body : String) : Bool :=
  (compilePattern pattern).search body.toList

example : re_search "foo" "xxfooyy" = true := by decide
example : re_search "foo" "xxfoyy" = false := by decide
example : re_search "f.o" "azfko" = true := by decide
example : re_search "ab*c" "zzaczz" = true := by decide
example : re_search "ab*c" "zzabbbczz" = true := by decide
example : re_search "cat|dog" "hotdog" = true := by decide
example : re_search "" "anything" = true := by decide

/-! ## Transport model (aiohttp, external collaborator)

The probe issues HEAD or GET requests through an `aiohttp.ClientSession`.
The transport is an oracle mapping a method and a target URL to one of the
three outcomes distinguished by the source: a normal HTTP response
(status, elapsed seconds, body), `asyncio.exceptions.TimeoutError`, or
`aiohttp.ClientError`.  `elapsed` is the wall-clock time between the two
`datetime.now()` calls of the corresponding control path, so the clock is
monotone exactly when every `elapsed` is nonnegative. -/

/-- HTTP request method used by the probe. -/
inductive HttpMethod where
  | head : HttpMethod
  | get : HttpMethod
  deriving Repr, DecidableEq

/-- An `aiohttp.ClientError` (DNS failure, connection refused, TLS failure, …). -/
structure ClientError where
  msg : String
  deriving Repr, DecidableEq

/-- Outcome of one transport call (request plus, for GET, the body read). -/
inductive TransportOutcome where
  | response (status : ℕ) (elapsed : ℚ) (body : String)
  | timeout (elapsed : ℚ)
  | clientError (e : ClientError)
  deriving Repr, DecidableEq

/-- Observable I/O effects of a probe, in order. -/
inductive ProbeEvent where
  | request (m : HttpMethod) (target : String)
  | readBody (target : String)
  deriving Repr, DecidableEq

/-- What one scheme iteration of `check_website_availability` does:
either a returned `WebsiteMonitoringResult` or a propagated
`aiohttp.ClientError`, together with the I/O trace. -/
structure AttemptResult where
  result : Except ClientError WebsiteMonitoringResult
  trace : List ProbeEvent
  deriving Repr

/-- Python truthiness of the optional `regexp_pattern` string:
`not regexp_pattern` is true exactly for `None` and `""`. -/
def strTruthy : Option String → Bool
  | none => false
  | some s => if s = "" then false else true

/-! ## `check_website_availability` (`website_monitor.py`, lines 145-197) -/

/-- The `if not regexp_pattern` branch: `session.head(target_url, ...)`.
No body is read; `is_regex_pattern_compliant` keeps its `None` initial
value on every path. -/
def headAttempt (transport : HttpMethod → String → TransportOutcome)
    (request_timestamp : ℚ) (target_url : String) : AttemptResult :=
  match transport .head target_url with
  | .response status elapsed _body =>
      { result := .ok
          { request_timestamp := request_timestamp
            response_timestamp := request_timestamp + elapsed
            response_time := request_timestamp + elapsed - request_timestamp
            http_status_code := status
            is_regex_pattern_compliant := none }
        trace := [.request .head target_url] }
  | .timeout elapsed =>
      { result := .ok
          { request_timestamp := request_timestamp
            response_timestamp := request_timestamp + elapsed
            response_time := MonitoringSettings.REQUEST_TIMEOUT
            http_status_code := 408
            is_regex_pattern_compliant := none }
        trace := [.request .head target_url] }
  | .clientError e =>
      { result := .error e
        trace := [.request .head target_url] }

/-- The `else` branch: `session.get(target_url, ...)` followed by
`response.text()` and the `re.search` compliance check.  On timeout the
compliance flag keeps its `None` initial value and
`response_time = REQUEST_TIMEOUT`, the synthetic status is 408
(`HTTPStatus.REQUEST_TIMEOUT.value`). -/
def getAttempt (transport : HttpMethod → String → TransportOutcome)
    (request_timestamp : ℚ) (target_url : String) (pattern : String) :
    AttemptResult :=
  match transport .get target_url with
  | .response status elapsed body =>
      { result := .ok
          { request_timestamp := request_timestamp
            response_timestamp := request_timestamp + elapsed
            response_time := request_timestamp + elapsed - request_timestamp
            http_status_code := status
            is_regex_pattern_compliant := some (re_search pattern body) }
        trace := [.request .get target_url, .readBody target_url] }
  | .timeout elapsed =>
      { result := .ok
          { request_timestamp := request_timestamp
            response_timestamp := request_timestamp + elapsed
            response_time := MonitoringSettings.REQUEST_TIMEOUT
            http_status_code := 408
            is_regex_pattern_compliant := none }
        trace := [.request .get target_url] }
  | .clientError e =>
      { result := .error e
        trace := [.request .get target_url] }

/-- The body of the `for scheme in ("https", "http")` loop: builds
`target_url`, takes `request_timestamp = datetime.now()`, dispatches on
`if not regexp_pattern` and ends in `return` (or re-raises the
`aiohttp.ClientError`). -/
def schemeAttempt (transport : HttpMethod → String → TransportOutcome)
    (request_timestamp : ℚ) (url : String) (regexp_pattern : Option String)
    (scheme : String) : AttemptResult :=
  let target_url := scheme ++ "://" ++ url
  match regexp_pattern with
  | none => headAttempt transport request_timestamp target_url
  | some p =>
      if p = "" then headAttempt transport request_timestamp target_url
      else getAttempt transport request_timestamp target_url p

/-- The scheme loop.  Every path of the body ends in `return` or `raise`,
so the translated body yields a value for each scheme it is run on; the
`none` result is the implicit `return None` Python would perform if the
loop ever fell through.  `now i` is the `datetime.now()` taken at the
start of iteration `i`. -/
def schemeLoop (transport : HttpMethod → String → TransportOutcome)
    (now : ℕ → ℚ) (url : String) (regexp_pattern : Option String) :
    List String → ℕ → Option AttemptResult
  | [], _ => none
  | scheme :: _rest, i =>
      some (schemeAttempt transport (now i) url regexp_pattern scheme)

/-- The function `check_website_availability(url, regexp_pattern)` under a transport
oracle and a clock (`now i` = value of `datetime.now()` at the start of
loop iteration `i`). -/
def check_website_availability (transport : HttpMethod → String → TransportOutcome)
    (now : ℕ → ℚ) (url : String) (regexp_pattern : Option String) :
    Option AttemptResult :=
  schemeLoop transport now url regexp_pattern ["https", "http"] 0

/-- The request method the probe uses for a given configured pattern. -/
def requestMethod (regexp_pattern : Option String) : HttpMethod :=
  if strTruthy regexp_pattern then .get else .head

/-! ## `check_website_recurrently` (`website_monitor.py`, lines 62-82) -/

/-- One row of website data handed to the monitor
(`url`, `id`, `interval`, `regexp_pattern`); `interval` is `None` when the
database column is NULL. -/
structure WebsiteData where
  url : String
  id : ℕ
  interval : Option ℚ
  regexp_pattern : Option String
  deriving Repr, DecidableEq

/-- Python truthiness of `website_data["interval"]`: falsy for `None` and `0`. -/
def intervalTruthy : Option ℚ → Bool
  | none => false
  | some q => if q = 0 then false else true

/-- Lines 79-80: the caller stamps `url` and `website_id` onto the probe
result before appending it to the buffer. -/
def stampResult (data : WebsiteData) (r : WebsiteMonitoringResult) :
    WebsiteMonitoringResult :=
  { r with url := some data.url, website_id := some data.id }

/-- Observable state of one site task after a bounded number of loop
iterations: returned immediately (no interval), still looping with the
results appended so far, or terminated by a propagated probe error. -/
inductive TaskState where
  | inactive : TaskState
  | running (appended : List WebsiteMonitoringResult) : TaskState
  | failed (e : ClientError) (appended : List WebsiteMonitoringResult) : TaskState
  deriving Repr, DecidableEq

/-- Results this task has appended to the shared buffer. -/
def TaskState.appended : TaskState → List WebsiteMonitoringResult
  | .inactive => []
  | .running l => l
  | .failed _ l => l

/-- The `while True` loop of `check_website_recurrently`, run for `fuel`
iterations.  `outcomes i` is what the awaited
`check_website_availability` call of iteration `i` produces: a result, or
a propagated `aiohttp.ClientError` — in which case the exception escapes
the task, which terminates (no restart). -/
def taskLoop (data : WebsiteData)
    (outcomes : ℕ → Except ClientError WebsiteMonitoringResult) :
    ℕ → ℕ → List WebsiteMonitoringResult → TaskState
  | 0, _, acc => .running acc
  | fuel + 1, i, acc =>
    match outcomes i with
    | .error e => .failed e acc
    | .ok r => taskLoop data outcomes fuel (i + 1) (acc ++ [stampResult data r])

/-- The coroutine `check_website_recurrently(website_data)`: if the interval is falsy,
log and return at once; otherwise run the probe loop. -/
def check_website_recurrently (data : WebsiteData)
    (outcomes : ℕ → Except ClientError WebsiteMonitoringResult)
    (fuel : ℕ) : TaskState :=
  if intervalTruthy data.interval then taskLoop data outcomes fuel 0 []
  else .inactive

/-- The task-launching loop of `monitor_websites` (lines 101-102),
starting at site index `start`: one independent site task per entry, the
task of site `i` driven by its own probe oracle `outcomes i`. -/
def launchTasksFrom (outcomes : ℕ → ℕ → Except ClientError WebsiteMonitoringResult)
    (fuel : ℕ) : ℕ → List WebsiteData → List TaskState
  | _, [] => []
  | i, data :: rest =>
      check_website_recurrently data (outcomes i) fuel ::
        launchTasksFrom outcomes fuel (i + 1) rest

/-- The task-launching loop of `monitor_websites`: one independent site
task per entry of `websites_data`. -/
def launchTasks (sites : List WebsiteData)
    (outcomes : ℕ → ℕ → Except ClientError WebsiteMonitoringResult)
    (fuel : ℕ) : List TaskState :=
  launchTasksFrom outcomes fuel 0 sites

/-! ## `save_website_monitoring_results` (`website_monitor.py`, lines 115-142)
and the persister side of `monitor_websites` (lines 104-113) -/

/-- A `psycopg2.Error` raised by the bulk insert. -/
structure DbError where
  msg : String
  deriving Repr, DecidableEq

/-- The statement `http_status_code_to_counter[code] += 1` on a `defaultdict(int)`:
an association list whose keys appear in first-insertion order. -/
def bumpCount (counts : List (ℕ × ℕ)) (code : ℕ) : List (ℕ × ℕ) :=
  match counts with
  | [] => [(code, 1)]
  | (c, n) :: rest =>
      if c = code then (c, n + 1) :: rest else (c, n) :: bumpCount rest code

/-- Read a counter value from the association list (0 when absent). -/
def countOf : List (ℕ × ℕ) → ℕ → ℕ
  | [], _ => 0
  | (c, n) :: rest, code => if c = code then n else countOf rest code

/-- The counter accumulated over a batch, in processing order. -/
def histogramOf (batch : List WebsiteMonitoringResult) : List (ℕ × ℕ) :=
  batch.foldl (fun h r => bumpCount h r.http_status_code) []

/-- The `while` loop of `save_website_monitoring_results`: while the deque
is nonempty and fewer than `RESULTS_BATCH_SAVE_SIZE` results have been
processed, `popleft` one result, append it to `monitoring_data`, and bump
its status-code counter.  Returns the remaining deque, the batch, the
counter and the processed count. -/
def drainLoop :
    List WebsiteMonitoringResult → List WebsiteMonitoringResult →
    List (ℕ × ℕ) → ℕ →
    List WebsiteMonitoringResult × List WebsiteMonitoringResult × List (ℕ × ℕ) × ℕ
  | [], monitoring_data, counter, processed =>
      ([], monitoring_data, counter, processed)
  | r :: rest, monitoring_data, counter, processed =>
      if processed < MonitoringSettings.RESULTS_BATCH_SAVE_SIZE then
        drainLoop rest (monitoring_data ++ [r])
          (bumpCount counter r.http_status_code) (processed + 1)
      else (r :: rest, monitoring_data, counter, processed)

/-- The call `sorted(counter.items(), key=lambda item: item[1], reverse=True)`:
a stable sort placing higher counts first (Python's `sorted` is stable,
also with `reverse=True`: entries of equal count keep their original
relative order). -/
def sortByCountDesc (l : List (ℕ × ℕ)) : List (ℕ × ℕ) :=
  l.insertionSort fun a b => b.2 ≤ a.2

/-- Everything one `save_website_monitoring_results` call does that the
rest of the program can observe: the deque it leaves behind, the batch it
hands to `DatabaseManager.batch_insert_monitoring_data` (exactly one
call), and either the `logger.info` payload (batch size, sorted
status-code breakdown) or the propagated `psycopg2.Error`. -/
structure FlushOutcome where
  buffer : List WebsiteMonitoringResult
  sunkBatch : List WebsiteMonitoringResult
  result : Except DbError (ℕ × List (ℕ × ℕ))
  deriving Repr

/-- The method `save_website_monitoring_results` under a sink oracle deciding whether
the bulk insert succeeds or raises.  The pops happen before the sink call;
on a sink error the function propagates before reaching the sort and the
log statement. -/
def save_website_monitoring_results
    (sink : List WebsiteMonitoringResult → Except DbError Unit)
    (monitoring_results : List WebsiteMonitoringResult) : FlushOutcome :=
  match drainLoop monitoring_results [] [] 0 with
  | (buffer, monitoring_data, counter, _processed) =>
    match sink monitoring_data with
    | .error e =>
        { buffer := buffer, sunkBatch := monitoring_data, result := .error e }
    | .ok _ =>
        { buffer := buffer, sunkBatch := monitoring_data
          result := .ok (monitoring_data.length, sortByCountDesc counter) }

/-- One persister cycle of the `monitor_websites` loop (lines 110-113):
`save_website_monitoring_results` inside `try/except Exception`; an
exception is caught and logged (second component `true`) and the loop
moves on — the cycle is a total function, nothing propagates out of it. -/
def monitorCycle (sink : List WebsiteMonitoringResult → Except DbError Unit)
    (monitoring_results : List WebsiteMonitoringResult) :
    List WebsiteMonitoringResult × Bool :=
  let o := save_website_monitoring_results sink monitoring_results
  match o.result with
  | .ok _ => (o.buffer, false)
  | .error _ => (o.buffer, true)

/-! ## Auxiliary definitions used by the claims -/

/-- Clock monotonicity of a transport outcome: the wall-clock time between
the `datetime.now()` before the request and the one after the response
(or after the timeout is caught) is nonnegative. -/
def TransportOutcome.elapsedNonneg : TransportOutcome → Prop
  | .response _ elapsed _ => 0 ≤ elapsed
  | .timeout elapsed => 0 ≤ elapsed
  | .clientError _ => True

instance : ∀ o : TransportOutcome, Decidable o.elapsedNonneg := by
  intro o
  cases o <;> simp [TransportOutcome.elapsedNonneg] <;> infer_instance

/-- A concrete result carrying a given status code, for concrete runs. -/
def sampleResult (code : ℕ) : WebsiteMonitoringResult :=
  { request_timestamp := 0
    response_timestamp := 0
    response_time := 0
    http_status_code := code }

/-- Modelled from the spec: "a single scheme, `https`, is actually
exercised in the control path before returning" — one single https-only
attempt, with no scheme loop around it. -/
def probe_https_once (transport : HttpMethod → String → TransportOutcome)
    (request_timestamp : ℚ) (url : String) (regexp_pattern : Option String) :
    AttemptResult :=
  schemeAttempt transport request_timestamp url regexp_pattern "https"

/-! ## Helper lemmas about the drain loop and the flush -/

theorem drainLoop_eq (dq : List WebsiteMonitoringResult) :
    ∀ (acc : List WebsiteMonitoringResult) (counter : List (ℕ × ℕ)) (processed : ℕ),
    drainLoop dq acc counter processed =
      (dq.drop (MonitoringSettings.RESULTS_BATCH_SAVE_SIZE - processed),
       acc ++ dq.take (MonitoringSettings.RESULTS_BATCH_SAVE_SIZE - processed),
       (dq.take (MonitoringSettings.RESULTS_BATCH_SAVE_SIZE - processed)).foldl
         (fun h r => bumpCount h r.http_status_code) counter,
       processed + min dq.length (MonitoringSettings.RESULTS_BATCH_SAVE_SIZE - processed)) := by
  induction dq with
  | nil => intro acc counter processed; simp [drainLoop]
  | cons r rest ih =>
    intro acc counter processed
    by_cases h : processed < MonitoringSettings.RESULTS_BATCH_SAVE_SIZE
    · have hk : MonitoringSettings.RESULTS_BATCH_SAVE_SIZE - processed =
          (MonitoringSettings.RESULTS_BATCH_SAVE_SIZE - (processed + 1)) + 1 := by omega
      rw [hk]
      simp only [drainLoop, if_pos h, ih, List.take_succ_cons, List.drop_succ_cons,
        List.foldl_cons, List.append_assoc, List.singleton_append, List.length_cons,
        Prod.mk.injEq, true_and]
      omega
    · have hk : MonitoringSettings.RESULTS_BATCH_SAVE_SIZE - processed = 0 := by omega
      simp [drainLoop, if_neg h, hk]

theorem save_buffer (sink : List WebsiteMonitoringResult → Except DbError Unit)
    (dq : List WebsiteMonitoringResult) :
    (save_website_monitoring_results sink dq).buffer =
      dq.drop MonitoringSettings.RESULTS_BATCH_SAVE_SIZE := by
  unfold save_website_monitoring_results
  rw [drainLoop_eq]
  simp only [Nat.sub_zero, List.nil_append]
  rcases hs : sink (dq.take MonitoringSettings.RESULTS_BATCH_SAVE_SIZE) with e | u <;>
    simp [hs]

theorem save_sunkBatch (sink : List WebsiteMonitoringResult → Except DbError Unit)
    (dq : List WebsiteMonitoringResult) :
    (save_website_monitoring_results sink dq).sunkBatch =
      dq.take MonitoringSettings.RESULTS_BATCH_SAVE_SIZE := by
  unfold save_website_monitoring_results
  rw [drainLoop_eq]
  simp only [Nat.sub_zero, List.nil_append]
  rcases hs : sink (dq.take MonitoringSettings.RESULTS_BATCH_SAVE_SIZE) with e | u <;>
    simp [hs]

theorem save_result_ok (sink : List WebsiteMonitoringResult → Except DbError Unit)
    (dq : List WebsiteMonitoringResult) (u : Unit)
    (h : sink (dq.take MonitoringSettings.RESULTS_BATCH_SAVE_SIZE) = .ok u) :
    (save_website_monitoring_results sink dq).result =
      .ok ((dq.take MonitoringSettings.RESULTS_BATCH_SAVE_SIZE).length,
        sortByCountDesc (histogramOf (dq.take MonitoringSettings.RESULTS_BATCH_SAVE_SIZE))) := by
  unfold save_website_monitoring_results
  rw [drainLoop_eq]
  simp only [Nat.sub_zero, List.nil_append]
  rw [h]
  simp [histogramOf]

theorem save_result_error (sink : List WebsiteMonitoringResult → Except DbError Unit)
    (dq : List WebsiteMonitoringResult) (e : DbError)
    (h : sink (dq.take MonitoringSettings.RESULTS_BATCH_SAVE_SIZE) = .error e) :
    (save_website_monitoring_results sink dq).result = .error e := by
  unfold save_website_monitoring_results
  rw [drainLoop_eq]
  simp only [Nat.sub_zero, List.nil_append]
  rw [h]

/-! ## Helper lemmas about the status-code histogram -/

theorem countOf_bumpCount (h : List (ℕ × ℕ)) (c code : ℕ) :
    countOf (bumpCount h c) code =
      countOf h code + if c = code then 1 else 0 := by
  induction h with
  | nil =>
    by_cases hc : c = code <;> simp [bumpCount, countOf, hc]
  | cons p rest ih =>
    obtain ⟨c', n⟩ := p
    by_cases hc' : c' = c
    · subst hc'
      by_cases hc : c' = code <;> simp [bumpCount, countOf, hc]
    · by_cases hc : c' = code
      · subst hc
        have : ¬ c = c' := fun hh => hc' hh.symm
        simp [bumpCount, countOf, hc', this]
      · simp [bumpCount, countOf, hc', hc, ih]

theorem countOf_foldl (batch : List WebsiteMonitoringResult) :
    ∀ (h : List (ℕ × ℕ)) (code : ℕ),
    countOf (batch.foldl (fun h r => bumpCount h r.http_status_code) h) code =
      countOf h code + batch.countP (fun r => r.http_status_code == code) := by
  induction batch with
  | nil => intro h code; simp
  | cons r rest ih =>
    intro h code
    by_cases hc : r.http_status_code = code <;>
      simp [List.countP_cons, ih, countOf_bumpCount, hc]
    omega

/-- Histogram correctness: the counter built by the drain loop counts, for
each status code, exactly the batch entries carrying it. -/
theorem countOf_histogramOf (batch : List WebsiteMonitoringResult) (code : ℕ) :
    countOf (histogramOf batch) code =
      batch.countP (fun r => r.http_status_code == code) := by
  simpa [histogramOf, countOf] using countOf_foldl batch [] code

theorem keys_bumpCount (h : List (ℕ × ℕ)) (c : ℕ) :
    (bumpCount h c).map Prod.fst =
      if c ∈ h.map Prod.fst then h.map Prod.fst else h.map Prod.fst ++ [c] := by
  induction h with
  | nil => simp [bumpCount]
  | cons p rest ih =>
    obtain ⟨c', n⟩ := p
    by_cases hc : c' = c
    · simp [bumpCount, hc]
    · have : ¬ c = c' := fun hh => hc hh.symm
      by_cases hmem : c ∈ rest.map Prod.fst <;>
        simp [bumpCount, hc, this, ih, hmem]

theorem nodupKeys_bumpCount (h : List (ℕ × ℕ)) (c : ℕ)
    (hnd : (h.map Prod.fst).Nodup) : ((bumpCount h c).map Prod.fst).Nodup := by
  rw [keys_bumpCount]
  by_cases hmem : c ∈ h.map Prod.fst
  · simpa [hmem] using hnd
  · simp only [hmem, if_neg]
    simp [List.nodup_append, hnd, hmem]

theorem nodupKeys_foldl (batch : List WebsiteMonitoringResult) :
    ∀ h : List (ℕ × ℕ), (h.map Prod.fst).Nodup →
    (((batch.foldl (fun h r => bumpCount h r.http_status_code) h)).map Prod.fst).Nodup := by
  induction batch with
  | nil => intro h hnd; simpa using hnd
  | cons r rest ih =>
    intro h hnd
    exact ih _ (nodupKeys_bumpCount h r.http_status_code hnd)

theorem nodupKeys_histogramOf (batch : List WebsiteMonitoringResult) :
    ((histogramOf batch).map Prod.fst).Nodup :=
  nodupKeys_foldl batch [] (by simp)

/-- On association lists with no duplicated keys, `countOf` is invariant
under permutation. -/
theorem countOf_eq_of_perm {l l' : List (ℕ × ℕ)} (hp : l.Perm l')
    (hnd : (l.map Prod.fst).Nodup) (code : ℕ) :
    countOf l code = countOf l' code := by
  induction hp with
  | nil => rfl
  | cons x hp ih =>
    obtain ⟨c, n⟩ := x
    simp only [List.map_cons, List.nodup_cons] at hnd
    by_cases hc : c = code <;> simp [countOf, hc, ih hnd.2]
  | swap x y l =>
    obtain ⟨c₁, n₁⟩ := x
    obtain ⟨c₂, n₂⟩ := y
    simp only [List.map_cons, List.nodup_cons, List.mem_cons] at hnd
    have hne : ¬ c₂ = c₁ := fun hh => hnd.1 (Or.inl hh)
    by_cases h1 : c₁ = code
    · subst h1
      simp [countOf, hne]
    · by_cases h2 : c₂ = code <;> simp [countOf, h1, h2]
  | trans hp₁ hp₂ ih₁ ih₂ =>
    have hnd' := ((hp₁.map Prod.fst).nodup_iff).mp hnd
    exact (ih₁ hnd).trans (ih₂ hnd')

theorem sortByCountDesc_perm (l : List (ℕ × ℕ)) : (sortByCountDesc l).Perm l :=
  List.perm_insertionSort _ l

theorem sortByCountDesc_sorted (l : List (ℕ × ℕ)) :
    (sortByCountDesc l).Sorted fun a b => b.2 ≤ a.2 := by
  haveI : IsTotal (ℕ × ℕ) (fun a b => b.2 ≤ a.2) :=
    ⟨fun a b => (Nat.le_total a.2 b.2).symm⟩
  haveI : IsTrans (ℕ × ℕ) (fun a b => b.2 ≤ a.2) :=
    ⟨fun _ _ _ hab hbc => le_trans hbc hab⟩
  exact List.sorted_insertionSort _ l

/-- The sorted histogram logged by the flush still counts, for each status
code, exactly the batch entries carrying it. -/
theorem countOf_sortByCountDesc_histogramOf
    (batch : List WebsiteMonitoringResult) (code : ℕ) :
    countOf (sortByCountDesc (histogramOf batch)) code =
      batch.countP (fun r => r.http_status_code == code) := by
  rw [← countOf_histogramOf batch code]
  exact (countOf_eq_of_perm (sortByCountDesc_perm (histogramOf batch)).symm
    (nodupKeys_histogramOf batch) code).symm

/-! ## Helper lemmas about the regex model and the probe -/

/-- Searching finds the pattern anywhere in the subject: `re.search` succeeds
exactly when the regex accepts some contiguous substring (not necessarily
the whole subject). -/
theorem Regex.search_iff (r : Regex) (s : List Char) :
    r.search s = true ↔
      ∃ pre mid post, s = pre ++ mid ++ post ∧ r.accept mid = true := by
  unfold Regex.search
  simp only [List.any_eq_true, List.mem_tails, List.mem_inits]
  constructor
  · rintro ⟨suf, hsuf, mid, hmid, hacc⟩
    obtain ⟨pre, rfl⟩ := hsuf
    obtain ⟨post, rfl⟩ := hmid
    exact ⟨pre, mid, post, by simp, hacc⟩
  · rintro ⟨pre, mid, post, rfl, hacc⟩
    exact ⟨mid ++ post, ⟨pre, by simp⟩, mid, ⟨post, rfl⟩, hacc⟩

theorem headAttempt_trace (transport : HttpMethod → String → TransportOutcome)
    (request_timestamp : ℚ) (target_url : String) :
    (headAttempt transport request_timestamp target_url).trace =
      [.request .head target_url] := by
  unfold headAttempt
  rcases transport .head target_url with _ | _ | _ <;> rfl

theorem headAttempt_compliant_none
    (transport : HttpMethod → String → TransportOutcome)
    (request_timestamp : ℚ) (target_url : String)
    (r : WebsiteMonitoringResult)
    (h : (headAttempt transport request_timestamp target_url).result = .ok r) :
    r.is_regex_pattern_compliant = none := by
  unfold headAttempt at h
  rcases htr : transport .head target_url with ⟨status, elapsed, body⟩ | ⟨elapsed⟩ | ⟨e⟩ <;>
    rw [htr] at h
  · simp only [Except.ok.injEq] at h
    rw [← h]
  · simp only [Except.ok.injEq] at h
    rw [← h]
  · exact absurd h (by simp)

theorem schemeAttempt_falsy (transport : HttpMethod → String → TransportOutcome)
    (request_timestamp : ℚ) (url : String) (regexp_pattern : Option String)
    (scheme : String) (h : strTruthy regexp_pattern = false) :
    schemeAttempt transport request_timestamp url regexp_pattern scheme =
      headAttempt transport request_timestamp (scheme ++ "://" ++ url) := by
  unfold schemeAttempt
  cases regexp_pattern with
  | none => rfl
  | some p =>
    simp only [strTruthy] at h
    by_cases hp : p = ""
    · simp [hp]
    · simp [hp] at h

theorem schemeAttempt_truthy (transport : HttpMethod → String → TransportOutcome)
    (request_timestamp : ℚ) (url : String) (p : String)
    (scheme : String) (hp : p ≠ "") :
    schemeAttempt transport request_timestamp url (some p) scheme =
      getAttempt transport request_timestamp (scheme ++ "://" ++ url) p := by
  unfold schemeAttempt
  simp [hp]

theorem check_website_availability_eq
    (transport : HttpMethod → String → TransportOutcome)
    (now : ℕ → ℚ) (url : String) (regexp_pattern : Option String) :
    check_website_availability transport now url regexp_pattern =
      some (schemeAttempt transport (now 0) url regexp_pattern "https") := rfl

theorem headAttempt_congr (t₁ t₂ : HttpMethod → String → TransportOutcome)
    (request_timestamp : ℚ) (target_url : String)
    (h : t₁ .head target_url = t₂ .head target_url) :
    headAttempt t₁ request_timestamp target_url =
      headAttempt t₂ request_timestamp target_url := by
  unfold headAttempt
  rw [h]

theorem getAttempt_congr (t₁ t₂ : HttpMethod → String → TransportOutcome)
    (request_timestamp : ℚ) (target_url : String) (p : String)
    (h : t₁ .get target_url = t₂ .get target_url) :
    getAttempt t₁ request_timestamp target_url p =
      getAttempt t₂ request_timestamp target_url p := by
  unfold getAttempt
  rw [h]

theorem schemeAttempt_congr (t₁ t₂ : HttpMethod → String → TransportOutcome)
    (request_timestamp : ℚ) (url : String) (regexp_pattern : Option String)
    (scheme : String)
    (h : ∀ m, t₁ m (scheme ++ "://" ++ url) = t₂ m (scheme ++ "://" ++ url)) :
    schemeAttempt t₁ request_timestamp url regexp_pattern scheme =
      schemeAttempt t₂ request_timestamp url regexp_pattern scheme := by
  unfold schemeAttempt
  cases regexp_pattern with
  | none => exact headAttempt_congr t₁ t₂ request_timestamp _ (h .head)
  | some p =>
    by_cases hp : p = ""
    · simp only [hp, if_pos rfl]
      exact headAttempt_congr t₁ t₂ request_timestamp _ (h .head)
    · simp only [if_neg hp]
      exact getAttempt_congr t₁ t₂ request_timestamp _ p (h .get)

theorem get?_launchTasksFrom
    (outcomes : ℕ → ℕ → Except ClientError WebsiteMonitoringResult)
    (fuel : ℕ) (sites : List WebsiteData) :
    ∀ (start j : ℕ),
    (launchTasksFrom outcomes fuel start sites).get? j =
      (sites.get? j).map
        (fun d => check_website_recurrently d (outcomes (start + j)) fuel) := by
  induction sites with
  | nil => intro start j; simp [launchTasksFrom]
  | cons d rest ih =>
    intro start j
    cases j with
    | zero => simp [launchTasksFrom]
    | succ j' =>
      simp only [launchTasksFrom, List.get?]
      rw [ih (start + 1) j']
      have h1 : start + 1 + j' = start + (j' + 1) := by omega
      rw [h1]

theorem strTruthy_eq_true {pattern : Option String} :
    strTruthy pattern = true ↔ ∃ p, pattern = some p ∧ p ≠ "" := by
  cases pattern with
  | none => simp [strTruthy]
  | some p => by_cases hp : p = "" <;> simp [strTruthy, hp]

theorem headAttempt_ok_nonneg (transport : HttpMethod → String → TransportOutcome)
    (request_timestamp : ℚ) (target_url : String)
    (hne : (transport .head target_url).elapsedNonneg)
    (r : WebsiteMonitoringResult)
    (h : (headAttempt transport request_timestamp target_url).result = .ok r) :
    0 ≤ r.response_time := by
  unfold headAttempt at h
  rcases htr : transport .head target_url with ⟨s, e, b⟩ | ⟨e⟩ | ⟨er⟩ <;>
    rw [htr] at h hne
  · simp only [Except.ok.injEq] at h
    simp only [TransportOutcome.elapsedNonneg] at hne
    rw [← h]
    simpa using hne
  · simp only [Except.ok.injEq] at h
    rw [← h]
    norm_num [MonitoringSettings.REQUEST_TIMEOUT]
  · exact absurd h (by simp)

theorem getAttempt_ok_nonneg (transport : HttpMethod → String → TransportOutcome)
    (request_timestamp : ℚ) (target_url : String) (p : String)
    (hne : (transport .get target_url).elapsedNonneg)
    (r : WebsiteMonitoringResult)
    (h : (getAttempt transport request_timestamp target_url p).result = .ok r) :
    0 ≤ r.response_time := by
  unfold getAttempt at h
  rcases htr : transport .get target_url with ⟨s, e, b⟩ | ⟨e⟩ | ⟨er⟩ <;>
    rw [htr] at h hne
  · simp only [Except.ok.injEq] at h
    simp only [TransportOutcome.elapsedNonneg] at hne
    rw [← h]
    simpa using hne
  · simp only [Except.ok.injEq] at h
    rw [← h]
    norm_num [MonitoringSettings.REQUEST_TIMEOUT]
  · exact absurd h (by simp)

theorem headAttempt_timeout_eq (transport : HttpMethod → String → TransportOutcome)
    (request_timestamp : ℚ) (target_url : String) (elapsed : ℚ)
    (h : transport .head target_url = .timeout elapsed) :
    headAttempt transport request_timestamp target_url =
      { result := .ok
          { request_timestamp := request_timestamp
            response_timestamp := request_timestamp + elapsed
            response_time := MonitoringSettings.REQUEST_TIMEOUT
            http_status_code := 408
            is_regex_pattern_compliant := none }
        trace := [.request .head target_url] } := by
  unfold headAttempt
  rw [h]

theorem getAttempt_timeout_eq (transport : HttpMethod → String → TransportOutcome)
    (request_timestamp : ℚ) (target_url : String) (p : String) (elapsed : ℚ)
    (h : transport .get target_url = .timeout elapsed) :
    getAttempt transport request_timestamp target_url p =
      { result := .ok
          { request_timestamp := request_timestamp
            response_timestamp := request_timestamp + elapsed
            response_time := MonitoringSettings.REQUEST_TIMEOUT
            http_status_code := 408
            is_regex_pattern_compliant := none }
        trace := [.request .get target_url] } := by
  unfold getAttempt
  rw [h]

theorem getAttempt_response_eq (transport : HttpMethod → String → TransportOutcome)
    (request_timestamp : ℚ) (target_url : String) (p : String)
    (status : ℕ) (elapsed : ℚ) (body : String)
    (h : transport .get target_url = .response status elapsed body) :
    getAttempt transport request_timestamp target_url p =
      { result := .ok
          { request_timestamp := request_timestamp
            response_timestamp := request_timestamp + elapsed
            response_time := request_timestamp + elapsed - request_timestamp
            http_status_code := status
            is_regex_pattern_compliant := some (re_search p body) }
        trace := [.request .get target_url, .readBody target_url] } := by
  unfold getAttempt
  rw [h]

theorem headAttempt_clientError_eq (transport : HttpMethod → String → TransportOutcome)
    (request_timestamp : ℚ) (target_url : String) (e : ClientError)
    (h : transport .head target_url = .clientError e) :
    headAttempt transport request_timestamp target_url =
      { result := .error e, trace := [.request .head target_url] } := by
  unfold headAttempt
  rw [h]

theorem getAttempt_clientError_eq (transport : HttpMethod → String → TransportOutcome)
    (request_timestamp : ℚ) (target_url : String) (p : String) (e : ClientError)
    (h : transport .get target_url = .clientError e) :
    getAttempt transport request_timestamp target_url p =
      { result := .error e, trace := [.request .get target_url] } := by
  unfold getAttempt
  rw [h]

theorem getAttempt_trace_head (transport : HttpMethod → String → TransportOutcome)
    (request_timestamp : ℚ) (target_url : String) (p : String) :
    (getAttempt transport request_timestamp target_url p).trace.head? =
      some (.request .get target_url) := by
  unfold getAttempt
  rcases transport .get target_url with ⟨s, e, b⟩ | ⟨e⟩ | ⟨er⟩ <;> rfl

/-! ## Claim theorems -/

/-- C1: one call to `save_website_monitoring_results` removes exactly the
first `min(buffer length, RESULTS_BATCH_SAVE_SIZE)` results from the front
of the buffer, in insertion (FIFO) order, and hands exactly that sequence,
in that order, to the result sink as the one bulk write; it never hands
more than `RESULTS_BATCH_SAVE_SIZE = 100` items, stops early when the
buffer empties, and — being a total function also on the empty buffer —
does not block when the buffer is empty at call entry. -/
theorem flush_pops_first_min_batch
    (sink : List WebsiteMonitoringResult → Except DbError Unit)
    (dq : List WebsiteMonitoringResult) :
    (save_website_monitoring_results sink dq).sunkBatch =
      dq.take MonitoringSettings.RESULTS_BATCH_SAVE_SIZE ∧
    (save_website_monitoring_results sink dq).buffer =
      dq.drop MonitoringSettings.RESULTS_BATCH_SAVE_SIZE ∧
    (save_website_monitoring_results sink dq).sunkBatch.length =
      min dq.length MonitoringSettings.RESULTS_BATCH_SAVE_SIZE ∧
    (save_website_monitoring_results sink dq).sunkBatch.length ≤
      MonitoringSettings.RESULTS_BATCH_SAVE_SIZE ∧
    (save_website_monitoring_results sink dq).sunkBatch ++
      (save_website_monitoring_results sink dq).buffer = dq ∧
    MonitoringSettings.RESULTS_BATCH_SAVE_SIZE = 100 := by
  refine ⟨save_sunkBatch sink dq, save_buffer sink dq, ?_, ?_, ?_, rfl⟩
  · rw [save_sunkBatch]
    simp [List.length_take]
    omega
  · rw [save_sunkBatch]
    simp [List.length_take]
  · rw [save_sunkBatch, save_buffer]
    exact List.take_append_drop _ dq

/-- C10: a flush on an empty buffer still makes the one sink call, with
the empty batch, and (when the sink does not raise) logs a batch size of
0 with an empty histogram; the sink call is not skipped, so its outcome
decides the outcome of the flush. -/
theorem flush_empty_buffer_calls_sink
    (sink : List WebsiteMonitoringResult → Except DbError Unit) :
    (save_website_monitoring_results sink []).sunkBatch = [] ∧
    (save_website_monitoring_results sink []).buffer = [] ∧
    (save_website_monitoring_results sink []).result =
      (match sink [] with
        | .ok _ => .ok (0, [])
        | .error e => .error e) := by
  refine ⟨by simpa using save_sunkBatch sink [], by simpa using save_buffer sink [], ?_⟩
  rcases hs : sink [] with e | u
  · have h := save_result_error sink [] e (by simpa using hs)
    simpa [hs] using h
  · have h := save_result_ok sink [] u (by simpa using hs)
    simpa [hs, histogramOf, sortByCountDesc] using h

/-- C2: if the sink raises during a flush of a non-empty batch, the popped
results are not restored to the buffer (it ends the cycle without them:
the batch is lost from memory); the `psycopg2.Error` propagates out of
`save_website_monitoring_results` and is caught and logged by the
scheduler-loop cycle, which — being a total function — returns normally so
the loop continues on the next cycle. -/
theorem sink_failure_batch_lost_and_logged
    (sink : List WebsiteMonitoringResult → Except DbError Unit)
    (dq : List WebsiteMonitoringResult) (e : DbError)
    (_hne : dq ≠ [])
    (hfail : sink (dq.take MonitoringSettings.RESULTS_BATCH_SAVE_SIZE) = .error e) :
    (save_website_monitoring_results sink dq).result = .error e ∧
    (save_website_monitoring_results sink dq).buffer =
      dq.drop MonitoringSettings.RESULTS_BATCH_SAVE_SIZE ∧
    monitorCycle sink dq =
      (dq.drop MonitoringSettings.RESULTS_BATCH_SAVE_SIZE, true) := by
  refine ⟨save_result_error sink dq e hfail, save_buffer sink dq, ?_⟩
  simp [monitorCycle, save_result_error sink dq e hfail, save_buffer sink dq]

/-- Witness for C2: a one-element buffer and a sink that always raises. -/
theorem sink_failure_batch_lost_and_logged_witness :
    (save_website_monitoring_results (fun _ => .error ⟨"db down"⟩)
        [sampleResult 200]).result = .error ⟨"db down"⟩ ∧
    (save_website_monitoring_results (fun _ => .error ⟨"db down"⟩)
        [sampleResult 200]).buffer =
      [sampleResult 200].drop MonitoringSettings.RESULTS_BATCH_SAVE_SIZE ∧
    monitorCycle (fun _ => .error ⟨"db down"⟩) [sampleResult 200] =
      ([sampleResult 200].drop MonitoringSettings.RESULTS_BATCH_SAVE_SIZE, true) :=
  sink_failure_batch_lost_and_logged (fun _ => .error ⟨"db down"⟩)
    [sampleResult 200] ⟨"db down"⟩ (by simp) rfl

/-- C7: when the sink call succeeds, the flush logs the batch size
together with a histogram built over exactly the popped batch: its count
for every status code is the number of popped results carrying it, it is
sorted by descending frequency (a deterministic stable insertion sort, so
ties keep their stable first-occurrence order), and on the batch with
codes [200, 200, 404, 500, 200] it is [(200, 3), (404, 1), (500, 1)]. -/
theorem flush_histogram_counts_and_order
    (sink : List WebsiteMonitoringResult → Except DbError Unit)
    (dq : List WebsiteMonitoringResult) (u : Unit)
    (hok : sink (dq.take MonitoringSettings.RESULTS_BATCH_SAVE_SIZE) = .ok u) :
    ((save_website_monitoring_results sink dq).result =
      .ok ((save_website_monitoring_results sink dq).sunkBatch.length,
        sortByCountDesc (histogramOf (save_website_monitoring_results sink dq).sunkBatch)) ∧
     (sortByCountDesc (histogramOf (save_website_monitoring_results sink dq).sunkBatch)).Sorted
        (fun a b => b.2 ≤ a.2) ∧
     ∀ code,
       countOf (sortByCountDesc (histogramOf (save_website_monitoring_results sink dq).sunkBatch)) code =
       (save_website_monitoring_results sink dq).sunkBatch.countP
         (fun r => r.http_status_code == code)) ∧
    (save_website_monitoring_results (fun _ => .ok ())
        [sampleResult 200, sampleResult 200, sampleResult 404, sampleResult 500,
          sampleResult 200]).result =
      .ok (5, [(200, 3), (404, 1), (500, 1)]) := by
  refine ⟨⟨?_, ?_, ?_⟩, ?_⟩
  · rw [save_sunkBatch]
    exact save_result_ok sink dq u hok
  · rw [save_sunkBatch]
    exact sortByCountDesc_sorted _
  · intro code
    rw [save_sunkBatch]
    exact countOf_sortByCountDesc_histogramOf _ code
  · rfl

/-- Witness for C7: the claim's concrete batch with an always-succeeding
sink. -/
theorem flush_histogram_counts_and_order_witness :
    (save_website_monitoring_results (fun _ => .ok ())
        [sampleResult 200, sampleResult 200, sampleResult 404, sampleResult 500,
          sampleResult 200]).result =
      .ok (5, [(200, 3), (404, 1), (500, 1)]) :=
  (flush_histogram_counts_and_order (fun _ => .ok ())
    [sampleResult 200, sampleResult 200, sampleResult 404, sampleResult 500,
      sampleResult 200] () rfl).2

/-- C3: under a monotone clock (every transport elapsed time
nonnegative), every completed probe has `response_time ≥ 0`; and when the
transport call times out, the probe returns (rather than raising) a
result with `http_status_code = 408`, `response_time` exactly the
configured `REQUEST_TIMEOUT = 30` seconds (not the actual elapsed time),
and `is_regex_pattern_compliant` unset. -/
theorem probe_time_nonneg_and_timeout_exact
    (transport : HttpMethod → String → TransportOutcome)
    (now : ℕ → ℚ) (url : String) (pattern : Option String)
    (hclock : ∀ m target, (transport m target).elapsedNonneg) :
    (∀ a r, check_website_availability transport now url pattern = some a →
      a.result = .ok r → 0 ≤ r.response_time) ∧
    (∀ elapsed,
      transport (requestMethod pattern) ("https://" ++ url) = .timeout elapsed →
      ∃ r, check_website_availability transport now url pattern =
          some { result := .ok r
                 trace := [.request (requestMethod pattern) ("https://" ++ url)] } ∧
        r.http_status_code = 408 ∧
        r.response_time = MonitoringSettings.REQUEST_TIMEOUT ∧
        r.is_regex_pattern_compliant = none) ∧
    MonitoringSettings.REQUEST_TIMEOUT = 30 := by
  have htgt : ("https" ++ "://" ++ url : String) = "https://" ++ url := rfl
  refine ⟨?_, ?_, rfl⟩
  · intro a r ha hr
    rw [check_website_availability_eq, Option.some_inj] at ha
    subst ha
    by_cases ht : strTruthy pattern = true
    · obtain ⟨p, rfl, hp⟩ := strTruthy_eq_true.mp ht
      rw [schemeAttempt_truthy _ _ _ _ _ hp, htgt] at hr
      exact getAttempt_ok_nonneg transport (now 0) _ p
        (hclock .get ("https://" ++ url)) r hr
    · have hf : strTruthy pattern = false := by simpa using ht
      rw [schemeAttempt_falsy _ _ _ _ _ hf, htgt] at hr
      exact headAttempt_ok_nonneg transport (now 0) _
        (hclock .head ("https://" ++ url)) r hr
  · intro elapsed htimeout
    by_cases ht : strTruthy pattern = true
    · have hm : requestMethod pattern = .get := by simp [requestMethod, ht]
      obtain ⟨p, rfl, hp⟩ := strTruthy_eq_true.mp ht
      rw [hm] at htimeout ⊢
      rw [check_website_availability_eq, schemeAttempt_truthy _ _ _ _ _ hp, htgt,
        getAttempt_timeout_eq transport (now 0) _ p elapsed htimeout]
      exact ⟨_, rfl, rfl, rfl, rfl⟩
    · have hf : strTruthy pattern = false := by simpa using ht
      have hm : requestMethod pattern = .head := by simp [requestMethod, hf]
      rw [hm] at htimeout ⊢
      rw [check_website_availability_eq, schemeAttempt_falsy _ _ _ _ _ hf, htgt,
        headAttempt_timeout_eq transport (now 0) _ elapsed htimeout]
      exact ⟨_, rfl, rfl, rfl, rfl⟩

/-- Witness for C3: a transport that always times out after 5 seconds,
probed without a pattern. -/
theorem probe_time_nonneg_and_timeout_exact_witness :
    (∀ a r,
      check_website_availability (fun _ _ => .timeout 5) (fun _ => 0) "example.com" none = some a →
      a.result = .ok r → 0 ≤ r.response_time) ∧
    (∀ elapsed,
      (fun (_ : HttpMethod) (_ : String) => TransportOutcome.timeout 5)
          (requestMethod none) ("https://" ++ "example.com") = .timeout elapsed →
      ∃ r, check_website_availability (fun _ _ => .timeout 5) (fun _ => 0) "example.com" none =
          some { result := .ok r
                 trace := [.request (requestMethod none) ("https://" ++ "example.com")] } ∧
        r.http_status_code = 408 ∧
        r.response_time = MonitoringSettings.REQUEST_TIMEOUT ∧
        r.is_regex_pattern_compliant = none) ∧
    MonitoringSettings.REQUEST_TIMEOUT = 30 :=
  probe_time_nonneg_and_timeout_exact (fun _ _ => .timeout 5) (fun _ => 0)
    "example.com" none (fun m target => by norm_num [TransportOutcome.elapsedNonneg])

/-- C5: for a site whose interval is zero or absent (NULL), the site task
returns immediately: its state is `inactive` whatever the probe oracle
produces and however long it is run, so the prober is never consulted and
no result for that site is ever appended to the result buffer — a no-op,
not an error. -/
theorem zero_interval_task_inactive (data : WebsiteData)
    (h : data.interval = none ∨ data.interval = some 0) :
    ∀ (outcomes : ℕ → Except ClientError WebsiteMonitoringResult) (fuel : ℕ),
      check_website_recurrently data outcomes fuel = .inactive ∧
      (check_website_recurrently data outcomes fuel).appended = [] := by
  intro outcomes fuel
  have hf : intervalTruthy data.interval = false := by
    rcases h with h | h <;> simp [h, intervalTruthy]
  simp [check_website_recurrently, hf, TaskState.appended]

/-- Witness for C5: a site registered with interval 0. -/
theorem zero_interval_task_inactive_witness :
    check_website_recurrently ⟨"example.com", 1, some 0, none⟩
        (fun _ => .ok (sampleResult 200)) 3 = .inactive ∧
    (check_website_recurrently ⟨"example.com", 1, some 0, none⟩
        (fun _ => .ok (sampleResult 200)) 3).appended = [] :=
  zero_interval_task_inactive ⟨"example.com", 1, some 0, none⟩ (Or.inr rfl)
    (fun _ => .ok (sampleResult 200)) 3

/-- C4: when the transport reports an `aiohttp.ClientError`, the probe
produces no monitoring result and propagates the error to its caller; a
site task whose probe call raises terminates in the `failed` state (no
restart) with nothing appended, and the tasks of all other sites are
unaffected: their states do not depend on the failing site's probe
oracle. -/
theorem transport_error_propagates_and_kills_task
    (transport : HttpMethod → String → TransportOutcome)
    (now : ℕ → ℚ) (url : String) (pattern : Option String) (e : ClientError)
    (herr : transport (requestMethod pattern) ("https://" ++ url) = .clientError e) :
    (∃ a, check_website_availability transport now url pattern = some a ∧
      a.result = .error e) ∧
    (∀ (data : WebsiteData)
      (outcomes : ℕ → Except ClientError WebsiteMonitoringResult) (fuel : ℕ),
      intervalTruthy data.interval = true → outcomes 0 = .error e →
      check_website_recurrently data outcomes (fuel + 1) = .failed e []) ∧
    (∀ (sites : List WebsiteData)
      (oc oc' : ℕ → ℕ → Except ClientError WebsiteMonitoringResult)
      (fuel i : ℕ), (∀ k, k ≠ i → oc k = oc' k) →
      ∀ j, j ≠ i →
        (launchTasks sites oc fuel).get? j = (launchTasks sites oc' fuel).get? j) := by
  have htgt : ("https" ++ "://" ++ url : String) = "https://" ++ url := rfl
  refine ⟨?_, ?_, ?_⟩
  · by_cases ht : strTruthy pattern = true
    · have hm : requestMethod pattern = .get := by simp [requestMethod, ht]
      obtain ⟨p, rfl, hp⟩ := strTruthy_eq_true.mp ht
      rw [hm] at herr
      rw [check_website_availability_eq, schemeAttempt_truthy _ _ _ _ _ hp, htgt,
        getAttempt_clientError_eq transport (now 0) _ p e herr]
      exact ⟨_, rfl, rfl⟩
    · have hf : strTruthy pattern = false := by simpa using ht
      have hm : requestMethod pattern = .head := by simp [requestMethod, hf]
      rw [hm] at herr
      rw [check_website_availability_eq, schemeAttempt_falsy _ _ _ _ _ hf, htgt,
        headAttempt_clientError_eq transport (now 0) _ e herr]
      exact ⟨_, rfl, rfl⟩
  · intro data outcomes fuel hint h0
    simp [check_website_recurrently, hint, taskLoop, h0]
  · intro sites oc oc' fuel i hoc j hj
    simp only [launchTasks, get?_launchTasksFrom, Nat.zero_add, hoc j hj]

/-- Witness for C4: a transport that always reports a connection error,
one active site whose first probe raises, and a second site's task that is
unchanged when the first site's oracle changes. -/
theorem transport_error_propagates_and_kills_task_witness :
    (∃ a, check_website_availability (fun _ _ => .clientError ⟨"conn refused"⟩)
        (fun _ => 0) "example.com" none = some a ∧ a.result = .error ⟨"conn refused"⟩) ∧
    check_website_recurrently ⟨"example.com", 1, some 5, none⟩
        (fun _ => .error ⟨"conn refused"⟩) (2 + 1) = .failed ⟨"conn refused"⟩ [] ∧
    (launchTasks [⟨"a.com", 1, some 5, none⟩, ⟨"b.com", 2, some 5, none⟩]
        (fun _ _ => .error ⟨"conn refused"⟩) 2).get? 1 =
      (launchTasks [⟨"a.com", 1, some 5, none⟩, ⟨"b.com", 2, some 5, none⟩]
        (fun k => if k = 0 then fun _ => .ok (sampleResult 200)
                  else fun _ => .error ⟨"conn refused"⟩) 2).get? 1 := by
  have h := transport_error_propagates_and_kills_task
    (fun _ _ => .clientError ⟨"conn refused"⟩) (fun _ => 0) "example.com" none
    ⟨"conn refused"⟩ rfl
  refine ⟨h.1, ?_, ?_⟩
  · exact h.2.1 ⟨"example.com", 1, some 5, none⟩ (fun _ => .error ⟨"conn refused"⟩) 2
      rfl rfl
  · refine h.2.2 [⟨"a.com", 1, some 5, none⟩, ⟨"b.com", 2, some 5, none⟩] _ _ 2 0
      (fun k hk => ?_) 1 (by simp)
    simp [hk]

/-- C6: when no content pattern is configured (falsy pattern), the probe
issues a single HEAD request, reads no body, and the result's
`is_regex_pattern_compliant` is unset; when a pattern is configured, it
issues a GET request, reads the full body, and sets
`is_regex_pattern_compliant` to whether a regex search finds the pattern
anywhere within the body (a search, not a full match). -/
theorem probe_method_body_and_compliance
    (transport : HttpMethod → String → TransportOutcome)
    (now : ℕ → ℚ) (url : String) :
    (∀ pattern, strTruthy pattern = false →
      ∃ a, check_website_availability transport now url pattern = some a ∧
        a.trace = [ProbeEvent.request .head ("https://" ++ url)] ∧
        ∀ r, a.result = .ok r → r.is_regex_pattern_compliant = none) ∧
    (∀ p, p ≠ "" →
      ∃ a, check_website_availability transport now url (some p) = some a ∧
        a.trace.head? = some (ProbeEvent.request .get ("https://" ++ url)) ∧
        ∀ status elapsed body,
          transport .get ("https://" ++ url) = .response status elapsed body →
          a.trace = [ProbeEvent.request .get ("https://" ++ url),
                     ProbeEvent.readBody ("https://" ++ url)] ∧
          ∃ r, a.result = .ok r ∧
            r.is_regex_pattern_compliant = some (re_search p body) ∧
            (re_search p body = true ↔ ∃ pre mid post,
              body.toList = pre ++ mid ++ post ∧
              (compilePattern p).accept mid = true)) := by
  have htgt : ("https" ++ "://" ++ url : String) = "https://" ++ url := rfl
  constructor
  · intro pattern hf
    refine ⟨headAttempt transport (now 0) ("https://" ++ url), ?_,
      headAttempt_trace transport (now 0) ("https://" ++ url),
      fun r hr => headAttempt_compliant_none transport (now 0) _ r hr⟩
    rw [check_website_availability_eq, schemeAttempt_falsy _ _ _ _ _ hf, htgt]
  · intro p hp
    refine ⟨getAttempt transport (now 0) ("https://" ++ url) p, ?_,
      getAttempt_trace_head transport (now 0) _ p, ?_⟩
    · rw [check_website_availability_eq, schemeAttempt_truthy _ _ _ _ _ hp, htgt]
    · intro status elapsed body hresp
      rw [getAttempt_response_eq transport (now 0) _ p status elapsed body hresp]
      exact ⟨rfl, _, rfl, rfl, Regex.search_iff (compilePattern p) body.toList⟩

/-- Witness for C6: a HEAD probe without pattern, and a GET probe whose
pattern "foo" is found inside the body "xxfooyy". -/
theorem probe_method_body_and_compliance_witness :
    (∃ a, check_website_availability (fun _ _ => .response 200 1 "xxfooyy")
        (fun _ => 0) "example.com" none = some a ∧
      a.trace = [ProbeEvent.request .head ("https://" ++ "example.com")] ∧
      ∀ r, a.result = .ok r → r.is_regex_pattern_compliant = none) ∧
    (∃ a, check_website_availability (fun _ _ => .response 200 1 "xxfooyy")
        (fun _ => 0) "example.com" (some "foo") = some a ∧
      a.trace.head? = some (ProbeEvent.request .get ("https://" ++ "example.com")) ∧
      ∀ status elapsed body,
        (fun (_ : HttpMethod) (_ : String) => TransportOutcome.response 200 1 "xxfooyy")
            HttpMethod.get ("https://" ++ "example.com") = .response status elapsed body →
        a.trace = [ProbeEvent.request .get ("https://" ++ "example.com"),
                   ProbeEvent.readBody ("https://" ++ "example.com")] ∧
        ∃ r, a.result = .ok r ∧
          r.is_regex_pattern_compliant = some (re_search "foo" body) ∧
          (re_search "foo" body = true ↔ ∃ pre mid post,
            body.toList = pre ++ mid ++ post ∧
            (compilePattern "foo").accept mid = true)) :=
  ⟨(probe_method_body_and_compliance (fun _ _ => .response 200 1 "xxfooyy")
      (fun _ => 0) "example.com").1 none rfl,
   (probe_method_body_and_compliance (fun _ _ => .response 200 1 "xxfooyy")
      (fun _ => 0) "example.com").2 "foo" (by simp)⟩

/-- C8: the scheme loop exits on its first iteration for every input: the
probe equals a single https-only attempt, and its outcome depends only on
the transport's behaviour at the https target URL — the http fallback is
never exercised. -/
theorem probe_single_https_scheme
    (transport : HttpMethod → String → TransportOutcome)
    (now : ℕ → ℚ) (url : String) (pattern : Option String) :
    check_website_availability transport now url pattern =
      some (probe_https_once transport (now 0) url pattern) ∧
    ∀ transport',
      (∀ m, transport m ("https://" ++ url) = transport' m ("https://" ++ url)) →
      check_website_availability transport now url pattern =
        check_website_availability transport' now url pattern := by
  refine ⟨rfl, fun transport' h => ?_⟩
  rw [check_website_availability_eq, check_website_availability_eq]
  exact congrArg some
    (schemeAttempt_congr transport transport' (now 0) url pattern "https" (fun m => h m))

/-- Witness for C8: two transports agreeing at the https target URL (but
not at the http one) give the same probe outcome. -/
theorem probe_single_https_scheme_witness :
    check_website_availability (fun _ _ => .timeout 1) (fun _ => 0) "example.com" none =
      some (probe_https_once (fun _ _ => .timeout 1) 0 "example.com" none) ∧
    check_website_availability (fun _ _ => .timeout 1) (fun _ => 0) "example.com" none =
      check_website_availability
        (fun _ u => if u = "http://example.com" then .response 200 1 "" else .timeout 1)
        (fun _ => 0) "example.com" none :=
  ⟨(probe_single_https_scheme (fun _ _ => .timeout 1) (fun _ => 0) "example.com" none).1,
   (probe_single_https_scheme (fun _ _ => .timeout 1) (fun _ => 0) "example.com" none).2
     _ (fun m => by decide)⟩

/-- C9: an empty-string `regexp_pattern` behaves exactly like an absent
one: the probe takes the HEAD branch, reads no body, and the result's
`is_regex_pattern_compliant` is unset. -/
theorem empty_pattern_like_none
    (transport : HttpMethod → String → TransportOutcome)
    (now : ℕ → ℚ) (url : String) :
    check_website_availability transport now url (some "") =
      check_website_availability transport now url none ∧
    ∃ a, check_website_availability transport now url (some "") = some a ∧
      a.trace = [ProbeEvent.request .head ("https://" ++ url)] ∧
      ∀ r, a.result = .ok r → r.is_regex_pattern_compliant = none := by
  refine ⟨rfl, headAttempt transport (now 0) ("https://" ++ url), rfl,
    headAttempt_trace transport (now 0) ("https://" ++ url),
    fun r hr => headAttempt_compliant_none transport (now 0) _ r hr⟩

/-- Witness for C9: a concrete probe with the empty-string pattern. -/
theorem empty_pattern_like_none_witness :
    check_website_availability (fun _ _ => .response 200 1 "body") (fun _ => 0)
        "example.com" (some "") =
      check_website_availability (fun _ _ => .response 200 1 "body") (fun _ => 0)
        "example.com" none :=
  (empty_pattern_like_none (fun _ _ => .response 200 1 "body") (fun _ => 0)
    "example.com").1

end WebsiteStatusMonitor
